import Mathlib

/-!
Verification of the neon-mcp-loc gateway against its specification.

The repository contains several server entry points:
* an HTTP + SSE server (here called the SSE server) with a `checkAuth`
  gate, an SSE connection endpoint `GET /mcp-sse`, and an out-of-band
  message endpoint `POST /mcp-post?sessionId=...` backed by the
  `activeConnections` map;
* an Express server with an `authenticateToken` middleware protecting
  all `/api` routes, a tool-execution endpoint
  `POST /api/tools/:toolName/execute`, and a global error middleware;
* a plain Express server (`src/index.ts`) registering routes with no
  authentication gate and no AUTH_TOKEN startup check.

The definitions below are shallow embeddings of those handlers. JSON
response bodies are modelled by the value of their single error field
or by a dedicated constructor; the wrapping object is not replicated.
-/

namespace NeonMcp

/-- Splitting of a character list at every occurrence of a separator,
with the semantics of the JS `String.prototype.split` on a one-character
separator (adjacent separators and separators at either end produce
empty segments). -/
def splitChars (sep : Char) : List Char → List (List Char)
  | [] => [[]]
  | c :: rest =>
    if c = sep then [] :: splitChars sep rest
    else
      match splitChars sep rest with
      | [] => [[c]]
      | g :: gs => (c :: g) :: gs

/-- JS `s.split(sep)` for a one-character separator. -/
def splitOnChar (sep : Char) (s : String) : List String :=
  (splitChars sep s.data).map (fun l => ⟨l⟩)

/-- The characters of the literal `'Bearer '`. -/
def bearerChars : List Char := ['B', 'e', 'a', 'r', 'e', 'r', ' ']

/-- JS `s.startsWith('Bearer ')`. -/
def startsWithBearer (s : String) : Bool := bearerChars.isPrefixOf s.data

/-- Bearer-token extraction shared verbatim by both gates:
`authHeader && authHeader.startsWith('Bearer ') ? authHeader.split(' ')[1] : null`.
`none` models the JS `null`/absent value. -/
def extractToken (authHeader : Option String) : Option String :=
  match authHeader with
  | none => none
  | some h => if startsWithBearer h then (splitOnChar ' ' h).get? 1 else none

/-- The boolean auth gate of the SSE server (`checkAuth`): a falsy token
(absent or empty string) or a token different from the configured secret
yields `false`. -/
def checkAuth (authHeader : Option String) (secret : String) : Bool :=
  match extractToken authHeader with
  | none => false
  | some t => if t = "" then false else if t ≠ secret then false else true

/-- Rejection classes of the gates, mirroring the two warning branches
(`Missing token` versus `Invalid token`) before the accepting path. -/
inductive AuthClass
  | missingToken
  | invalidToken
  | valid
deriving DecidableEq

/-- Classification performed by `checkAuth` (the branch taken, including
which warning is logged). -/
def checkAuthClass (authHeader : Option String) (secret : String) : AuthClass :=
  match extractToken authHeader with
  | none => .missingToken
  | some t =>
    if t = "" then .missingToken
    else if t ≠ secret then .invalidToken
    else .valid

/-- Action taken by an Express middleware: respond immediately with a
status code and an error message, or call `next()`. -/
inductive GateAction
  | respond (status : Nat) (message : String)
  | proceed
deriving DecidableEq

/-- The Express auth middleware (`authenticateToken`): missing or falsy
token yields 401, a wrong token yields 403, otherwise `next()`. -/
def authenticateToken (authHeader : Option String) (secret : String) : GateAction :=
  match extractToken authHeader with
  | none => .respond 401 "Unauthorized: Missing token"
  | some t =>
    if t = "" then .respond 401 "Unauthorized: Missing token"
    else if t ≠ secret then .respond 403 "Forbidden: Invalid token"
    else .proceed

/-- A streaming transport, identified by the session id generated at
construction (`transport.sessionId`). -/
structure Transport where
  sessionId : String
deriving DecidableEq

/-- The `activeConnections` map of the SSE server, modelled by the
key-to-value mapping it represents. -/
abbrev Registry := String → Option Transport

/-- The empty session registry (`new Map()`). -/
def Registry.empty : Registry := fun _ => none

/-- JS `Map.set`: afterwards the key maps to the value, other keys are
unchanged. -/
def Registry.set (r : Registry) (k : String) (v : Transport) : Registry :=
  fun q => if q = k then some v else r q

/-- JS `Map.delete`: afterwards the key maps to nothing, other keys are
unchanged. -/
def Registry.del (r : Registry) (k : String) : Registry :=
  fun q => if q = k then none else r q

/-- Registry mutation performed by the SSE connection branch:
`activeConnections.set(sessionId, transport)`. -/
def sseConnectionSetup (r : Registry) (t : Transport) : Registry :=
  Registry.set r t.sessionId t

/-- Registry mutation performed by the close handler of a session:
`activeConnections.delete(sessionId)`. -/
def sseConnectionClose (r : Registry) (sid : String) : Registry :=
  Registry.del r sid

/-- The primitive steps of the SSE connection branch of the SSE server,
in source order: construct the transport, insert it into
`activeConnections`, `await transport.start()`, `await mcpServer.connect`. -/
inductive SseStep
  | createTransport
  | insertRegistry
  | startTransport
  | connectServer
deriving DecidableEq

/-- The steps of the SSE connection branch in the order the source
performs them. -/
def sseSetupSteps : List SseStep :=
  [.createTransport, .insertRegistry, .startTransport, .connectServer]

/-- Observable state of one connection during establishment: whether its
session id is in the registry and whether its transport has been
started. -/
structure SseSetupState where
  inRegistry : Bool
  transportStarted : Bool
deriving DecidableEq

/-- Effect of each establishment step on the observable state. -/
def sseStepTransition (s : SseSetupState) (step : SseStep) : SseSetupState :=
  match step with
  | .createTransport => s
  | .insertRegistry => { s with inRegistry := true }
  | .startTransport => { s with transportStarted := true }
  | .connectServer => s

/-- All intermediate states of the SSE connection branch, starting from
a fresh connection (not registered, not started). Because the start and
connect steps are awaited, each intermediate state is observable by
concurrently handled requests. -/
def sseSetupStates : List SseSetupState :=
  List.scanl sseStepTransition ⟨false, false⟩ sseSetupSteps

/-- An inbound request to the SSE server. `sessionIdParam` is the
`sessionId` query parameter. -/
structure HttpRequest where
  method : String
  path : String
  authHeader : Option String
  sessionIdParam : Option String
deriving DecidableEq

/-- A plain response of the SSE server; the body is the value of the
error field of the JSON body (empty for the bodiless 204). -/
structure HttpResponse where
  status : Nat
  body : String
deriving DecidableEq

/-- Outcome of the SSE server request handler: an immediate response,
entry into the SSE connection branch, or delegation of a POST body to
the transport of the given session. -/
inductive SseServerOutcome
  | respond (resp : HttpResponse)
  | sseConnect
  | delegatePost (sid : String)
deriving DecidableEq

/-- The SSE server request handler (CORS preflight, auth gate, then
routing). The `sessionId` guard is the JS `if (!sessionId)`, which
fires both for an absent parameter and for a present-but-empty one
(the empty string is falsy). The returned registry is the registry
after the handler body runs; no branch of the handler itself mutates it
(the SSE branch mutates it in its continuation, modelled by
`sseConnectionSetup`). -/
def httpServerHandler (secret : String) (registry : Registry) (req : HttpRequest) :
    SseServerOutcome × Registry :=
  if req.method = "OPTIONS" then (.respond ⟨204, ""⟩, registry)
  else if checkAuth req.authHeader secret = false then
    (.respond ⟨401, "Unauthorized"⟩, registry)
  else if req.path = "/mcp-sse" ∧ req.method = "GET" then (.sseConnect, registry)
  else if req.path = "/mcp-post" ∧ req.method = "POST" then
    match req.sessionIdParam with
    | none => (.respond ⟨400, "Missing sessionId query parameter"⟩, registry)
    | some sid =>
      if sid = "" then (.respond ⟨400, "Missing sessionId query parameter"⟩, registry)
      else
        match registry sid with
        | none => (.respond ⟨404, "Session not found or inactive"⟩, registry)
        | some _ => (.delegatePost sid, registry)
  else (.respond ⟨404, "Not Found"⟩, registry)

/-- JSON values, as far as the gateway inspects them. -/
inductive Json
  | str (s : String)
  | num (n : Int)
  | boolean (b : Bool)
  | obj (fields : List (String × Json))
  | null

/-- Name of the type of a JSON value as reported by the validator. -/
def jsonTypeName : Json → String
  | .str _ => "string"
  | .num _ => "number"
  | .boolean _ => "boolean"
  | .obj _ => "object"
  | .null => "null"

/-- Expected type of one field of a tool input schema. -/
inductive FieldTy
  | tstr
  | tnum
  | tbool
deriving DecidableEq

/-- Name of a field type as reported by the validator. -/
def fieldTyName : FieldTy → String
  | .tstr => "string"
  | .tnum => "number"
  | .tbool => "boolean"

/-- Whether a JSON value has the given field type. -/
def fieldTyMatches : FieldTy → Json → Bool
  | .tstr, .str _ => true
  | .tnum, .num _ => true
  | .tbool, .boolean _ => true
  | _, _ => false

/-- One required field of a tool input schema. -/
structure FieldSpec where
  fname : String
  ty : FieldTy
deriving DecidableEq

/-- Modelled from the spec: a tool input schema is a structural
validator for a single parameter object (the concrete schemas live in
`tools.js`, which is not part of the available sources; the validator is
the external `zod` library). A schema is a list of required typed
fields. -/
structure Schema where
  fields : List FieldSpec
deriving DecidableEq

/-- One validation violation, carrying the path of the violating field
and a message, mirroring what the schema validator reports. -/
structure Issue where
  path : List String
  message : String
deriving DecidableEq

/-- Key under which an issue is indexed in the formatted details: the
head of its field path (top-level issues go under a dedicated key). -/
def pathKey (i : Issue) : String :=
  match i.path with
  | [] => "_errors"
  | n :: _ => n

/-- First value bound to a key in a JSON object. -/
def lookupField (fields : List (String × Json)) (k : String) : Option Json :=
  (fields.find? (fun p => p.1 == k)).map (fun p => p.2)

/-- Violations produced by checking one schema field against the input
object: a missing required field, or a present field of the wrong type. -/
def checkField (input : List (String × Json)) (f : FieldSpec) : List Issue :=
  match lookupField input f.fname with
  | none => [⟨[f.fname], "Required"⟩]
  | some v =>
    if fieldTyMatches f.ty v then []
    else [⟨[f.fname], "Expected " ++ fieldTyName f.ty ++ ", received " ++ jsonTypeName v⟩]

/-- The validated data: the input restricted to the schema fields
(unknown keys are stripped). -/
def pickKnownFields (s : Schema) (fields : List (String × Json)) : List (String × Json) :=
  s.fields.filterMap (fun f => (lookupField fields f.fname).map (fun v => (f.fname, v)))

/-- Modelled from the spec: `inputSchema.safeParse` validates the raw
input against the schema and either returns the validated data or a
nonempty field-path-indexed list of violations. -/
def Schema.safeParse (s : Schema) (input : Json) : Except (List Issue) Json :=
  match input with
  | .obj fields =>
    let issues := (s.fields.map (checkField fields)).flatten
    if issues = [] then .ok (.obj (pickKnownFields s fields))
    else .error issues
  | other => .error [⟨[], "Expected object, received " ++ jsonTypeName other⟩]

/-- A value thrown by a handler: whether it is an `Error` instance, its
message, and its `status` property when that property is a number. -/
structure Thrown where
  isError : Bool
  message : String
  statusProp : Option Nat
deriving DecidableEq

/-- A tool handler: given validated input, produce a result or throw. -/
def Handler := Json → Except Thrown Json

/-- A tool definition as listed in `NEON_TOOLS`. -/
structure ToolDef where
  name : String
  description : String
  inputSchema : Schema

/-- The tool catalog: the `NEON_TOOLS` list and the `NEON_HANDLERS`
name-to-handler record. -/
structure ToolCatalog where
  tools : List ToolDef
  handlers : String → Option Handler

/-- Body of an Express response: plain text, a JSON error object
(modelled by its error field), an error with validation details (pairs
of field key and message), a JSON result, the status object, or the tool
list. -/
inductive RespBody
  | text (s : String)
  | errJson (message : String)
  | errDetails (message : String) (details : List (String × String))
  | json (v : Json)
  | statusJson
  | toolsJson (l : List (String × String))

/-- An Express response. -/
structure ApiResponse where
  status : Nat
  body : RespBody

/-- The global Express error middleware: status is the numeric `status`
property of the thrown value when present, 500 otherwise; the message is
the message of an `Error` instance and a generic one otherwise. -/
def errorMiddleware (err : Thrown) : ApiResponse :=
  let statusCode := match err.statusProp with
    | some s => s
    | none => 500
  let message := if err.isError then err.message else "Internal Server Error"
  ⟨statusCode, .errJson message⟩

/-- The tool execution endpoint (`handleToolExecution`): look the tool
up in the catalog and its handler in the handler record (404 when either
is absent), validate the body against the tool input schema (400 with
formatted details on failure), run the handler (200 on success), and
hand a thrown value to the error middleware. -/
def handleToolExecution (cat : ToolCatalog) (toolName : String) (params : Json) :
    ApiResponse :=
  match cat.tools.find? (fun t => t.name == toolName), cat.handlers toolName with
  | some toolDef, some handler =>
    match toolDef.inputSchema.safeParse params with
    | .error issues =>
      ⟨400, .errDetails "Invalid input parameters."
        (issues.map (fun i => (pathKey i, i.message)))⟩
    | .ok validated =>
      match handler validated with
      | .ok result => ⟨200, .json result⟩
      | .error e => errorMiddleware e
  | _, _ => ⟨404, .errJson ("Tool '" ++ toolName ++ "' not found.")⟩

/-- An inbound Express request. -/
structure ApiRequest where
  method : String
  path : String
  authHeader : Option String
  body : Json

/-- Tool name captured by the route pattern
`/api/tools/:toolName/execute` (the parameter segment must be
nonempty). -/
def execRouteToolName (p : String) : Option String :=
  match splitOnChar '/' p with
  | ["", "api", "tools", name, "execute"] => if name = "" then none else some name
  | _ => none

/-- Whether a path is under the `/api` mount point of the auth
middleware (`app.use('/api', authenticateToken)`): the path is `/api`
itself or continues with a path separator. -/
def isApiPath (p : String) : Bool :=
  p == "/api" || ['/', 'a', 'p', 'i', '/'].isPrefixOf p.data

/-- Routes of the authenticated Express server registered behind the
auth middleware, with the Express fallthrough 404 for unmatched
requests. -/
def apiRoutes (cat : ToolCatalog) (req : ApiRequest) : ApiResponse :=
  if req.method = "GET" ∧ req.path = "/api/status" then ⟨200, .statusJson⟩
  else if req.method = "GET" ∧ req.path = "/api/tools" then
    ⟨200, .toolsJson (cat.tools.map (fun t => (t.name, t.description)))⟩
  else
    match execRouteToolName req.path with
    | some toolName =>
      if req.method = "POST" then handleToolExecution cat toolName req.body
      else ⟨404, .text ("Cannot " ++ req.method ++ " " ++ req.path)⟩
    | none => ⟨404, .text ("Cannot " ++ req.method ++ " " ++ req.path)⟩

/-- The authenticated Express server: a public banner at `GET /`, the
auth middleware guarding every `/api` path before any `/api` route runs,
and the Express fallthrough 404 elsewhere. -/
def expressApp (secret : String) (cat : ToolCatalog) (req : ApiRequest) : ApiResponse :=
  if req.method = "GET" ∧ req.path = "/" then
    ⟨200, .text "MCP Server Neon is running. Use API endpoints."⟩
  else if isApiPath req.path = true then
    match authenticateToken req.authHeader secret with
    | .respond st msg => ⟨st, .errJson msg⟩
    | .proceed => apiRoutes cat req
  else ⟨404, .text ("Cannot " ++ req.method ++ " " ++ req.path)⟩

/-- The plain Express server of `src/index.ts`: banner, status route and
tool execution route, with no authentication gate anywhere. -/
def plainApp (cat : ToolCatalog) (req : ApiRequest) : ApiResponse :=
  if req.method = "GET" ∧ req.path = "/" then
    ⟨200, .text "MCP Server Neon is running. Use API endpoints."⟩
  else if req.method = "GET" ∧ req.path = "/api/status" then ⟨200, .statusJson⟩
  else
    match execRouteToolName req.path with
    | some toolName =>
      if req.method = "POST" then handleToolExecution cat toolName req.body
      else ⟨404, .text ("Cannot " ++ req.method ++ " " ++ req.path)⟩
    | none => ⟨404, .text ("Cannot " ++ req.method ++ " " ++ req.path)⟩

/-- Environment configuration read at startup. -/
structure Env where
  authToken : Option String
  neonApiKey : Option String
deriving DecidableEq

/-- JS falsiness of the `AUTH_TOKEN` environment variable: unset or the
empty string. -/
def envTokenFalsy (e : Env) : Bool :=
  match e.authToken with
  | none => true
  | some s => s == ""

/-- Outcome of running a server entry point up to its listen call. -/
inductive StartupOutcome
  | exitWithError
  | started
deriving DecidableEq

/-- Startup gate of the SSE server entry point: a falsy `AUTH_TOKEN`
makes the process print a fatal error and exit with code 1. -/
def sseIndexStartup (env : Env) : StartupOutcome :=
  if envTokenFalsy env = true then .exitWithError else .started

/-- Startup gate of the authenticated Express entry point: the same
fatal check on `AUTH_TOKEN`. -/
def expressIndexStartup (env : Env) : StartupOutcome :=
  if envTokenFalsy env = true then .exitWithError else .started

/-- Startup of the plain Express entry point (`src/index.ts`): it reads
no `AUTH_TOKEN` and performs no such check, so it always proceeds to
serve. -/
def plainIndexStartup (_env : Env) : StartupOutcome := .started

/-- Modelled from the spec: the `run_sql` tool input schema requires a
string field `sql` (the concrete schema lives in `tools.js`, which is
not among the available sources). -/
def runSqlSchema : Schema := ⟨[⟨"sql", .tstr⟩]⟩

/-- A catalog holding the `run_sql` tool with a handler that echoes its
validated input. -/
def runSqlCatalog : ToolCatalog :=
  ⟨[⟨"run_sql", "Run a SQL statement", runSqlSchema⟩],
   fun n => if n = "run_sql" then some (fun v => .ok v) else none⟩

/-- A catalog holding one no-input tool whose handler throws an `Error`
carrying a numeric `status` property of 404. -/
def throwingCatalog : ToolCatalog :=
  ⟨[⟨"boom", "Always throws", ⟨[]⟩⟩],
   fun n =>
     if n = "boom" then some (fun _ => .error ⟨true, "upstream not found", some 404⟩)
     else none⟩

/-- Helper: when validation fails, the list of reported violations is
nonempty. -/
theorem safeParse_error_ne_nil (s : Schema) (input : Json) (issues : List Issue)
    (h : s.safeParse input = .error issues) : issues ≠ [] := by
  cases input with
  | obj fields =>
    simp only [Schema.safeParse] at h
    split at h
    · simp at h
    · next hne =>
      injection h with h'
      subst h'
      exact hne
  | str s' =>
    simp only [Schema.safeParse] at h
    injection h with h'
    subst h'
    simp
  | num n =>
    simp only [Schema.safeParse] at h
    injection h with h'
    subst h'
    simp
  | boolean b =>
    simp only [Schema.safeParse] at h
    injection h with h'
    subst h'
    simp
  | null =>
    simp only [Schema.safeParse] at h
    injection h with h'
    subst h'
    simp

/-- C1 counterexample: the claim that a session id is only ever in the
registry once its transport is started fails on the SSE connection
branch: among its intermediate states there is one where the session is
registered but the transport is not yet started. -/
theorem c1_counterexample :
    ¬ (∀ s ∈ sseSetupStates, s.inRegistry = true → s.transportStarted = true) := by
  decide

/-- C1 (amended): in the SSE connection branch the registry insertion
strictly precedes the transport start, so the establishment passes
through a state where the session id is registered while its transport
is not yet started. -/
theorem c1_insert_precedes_start :
    sseSetupSteps.indexOf SseStep.insertRegistry <
      sseSetupSteps.indexOf SseStep.startTransport ∧
    SseSetupState.mk true false ∈ sseSetupStates := by
  decide

/-- C2 counterexample: on the SSE server a request that supplies a
bearer credential different from the configured secret receives status
401, not the 403 the claim requires for a wrong credential. -/
theorem c2_counterexample :
    (httpServerHandler "s3cret" Registry.empty
        ⟨"GET", "/mcp-sse", some "Bearer wrong", none⟩).1 =
      SseServerOutcome.respond ⟨401, "Unauthorized"⟩ ∧ (401 : Nat) ≠ 403 := by
  exact ⟨by decide, by decide⟩

/-- C2 (amended): on the Express server a missing or falsy token yields
401 and a wrong token yields 403, in both cases from the middleware
before any route under the protected mount point runs; on the SSE
server every failed credential, missing or wrong, yields 401 before any
routing. -/
theorem c2_status_codes :
    (∀ (secret : String) (hdr : Option String),
        extractToken hdr = none ∨ extractToken hdr = some "" →
        authenticateToken hdr secret = .respond 401 "Unauthorized: Missing token") ∧
    (∀ (secret : String) (hdr : Option String) (t : String),
        extractToken hdr = some t → t ≠ "" → t ≠ secret →
        authenticateToken hdr secret = .respond 403 "Forbidden: Invalid token") ∧
    (∀ (secret : String) (cat : ToolCatalog) (req : ApiRequest) (st : Nat) (msg : String),
        isApiPath req.path = true →
        authenticateToken req.authHeader secret = .respond st msg →
        expressApp secret cat req = ⟨st, .errJson msg⟩) ∧
    (∀ (secret : String) (registry : Registry) (req : HttpRequest),
        req.method ≠ "OPTIONS" →
        checkAuth req.authHeader secret = false →
        httpServerHandler secret registry req =
          (.respond ⟨401, "Unauthorized"⟩, registry)) := by
  refine ⟨?_, ?_, ?_, ?_⟩
  · intro secret hdr h
    cases h with
    | inl h => simp [authenticateToken, h]
    | inr h => simp [authenticateToken, h]
  · intro secret hdr t h1 h2 h3
    simp [authenticateToken, h1, h2, h3]
  · intro secret cat req st msg hapi hauth
    have hroot : ¬ (req.method = "GET" ∧ req.path = "/") := by
      intro hc
      rw [hc.2] at hapi
      exact absurd hapi (by decide)
    unfold expressApp
    rw [if_neg hroot, if_pos hapi, hauth]
  · intro secret registry req hm hauth
    unfold httpServerHandler
    rw [if_neg hm, if_pos hauth]

/-- C2 witness: the four behaviours at concrete requests. -/
theorem c2_status_codes_witness :
    authenticateToken (some "Basic abc") "tok" = .respond 401 "Unauthorized: Missing token" ∧
    authenticateToken (some "Bearer wrong") "tok" = .respond 403 "Forbidden: Invalid token" ∧
    expressApp "tok" runSqlCatalog ⟨"GET", "/api/status", some "Bearer wrong", Json.null⟩ =
      ⟨403, .errJson "Forbidden: Invalid token"⟩ ∧
    httpServerHandler "tok" Registry.empty ⟨"GET", "/mcp-sse", none, none⟩ =
      (.respond ⟨401, "Unauthorized"⟩, Registry.empty) :=
  ⟨c2_status_codes.1 "tok" (some "Basic abc") (Or.inl rfl),
   c2_status_codes.2.1 "tok" (some "Bearer wrong") "wrong" rfl (by decide) (by decide),
   c2_status_codes.2.2.1 "tok" runSqlCatalog
     ⟨"GET", "/api/status", some "Bearer wrong", Json.null⟩ 403
     "Forbidden: Invalid token" rfl rfl,
   c2_status_codes.2.2.2 "tok" Registry.empty ⟨"GET", "/mcp-sse", none, none⟩
     (by decide) rfl⟩

/-- C3 counterexample: the plain Express entry point starts with no
configured secret and serves a protected-looking route to a request
carrying no credential at all. -/
theorem c3_counterexample :
    plainIndexStartup ⟨none, none⟩ = .started ∧
    plainApp runSqlCatalog ⟨"GET", "/api/status", none, Json.null⟩ = ⟨200, .statusJson⟩ :=
  ⟨rfl, rfl⟩

/-- C3 (amended): the SSE entry point and the authenticated Express
entry point refuse to start when the configured secret is absent or
empty; the plain Express entry point performs no such check. -/
theorem c3_auth_entry_points_exit :
    ∀ env : Env, envTokenFalsy env = true →
      sseIndexStartup env = .exitWithError ∧
      expressIndexStartup env = .exitWithError := by
  intro env h
  exact ⟨by simp [sseIndexStartup, h], by simp [expressIndexStartup, h]⟩

/-- C3 witness: both authenticated entry points exit when AUTH_TOKEN is
unset. -/
theorem c3_auth_entry_points_exit_witness :
    sseIndexStartup ⟨none, some "key"⟩ = .exitWithError ∧
    expressIndexStartup ⟨none, some "key"⟩ = .exitWithError :=
  c3_auth_entry_points_exit ⟨none, some "key"⟩ rfl

/-- C4: with a nonempty configured secret, both gates accept exactly the
requests whose extracted bearer token equals the secret, so partial,
extended, or case-mismatched token values are rejected. -/
theorem c4_exact_secret_match :
    ∀ secret : String, secret ≠ "" →
      ∀ hdr : Option String,
        (checkAuth hdr secret = true ↔ extractToken hdr = some secret) ∧
        (authenticateToken hdr secret = .proceed ↔ extractToken hdr = some secret) := by
  intro secret hsec hdr
  cases hx : extractToken hdr with
  | none => simp [checkAuth, authenticateToken, hx]
  | some t =>
    by_cases ht : t = ""
    · subst ht
      simp [checkAuth, authenticateToken, hx, Ne.symm hsec]
    · by_cases hts : t = secret
      · subst hts
        simp [checkAuth, authenticateToken, hx, ht]
      · simp [checkAuth, authenticateToken, hx, ht, hts]

/-- C4 witness: the exact secret is accepted by both gates. -/
theorem c4_exact_secret_match_witness :
    ("tok" : String) ≠ "" ∧
    checkAuth (some "Bearer tok") "tok" = true ∧
    authenticateToken (some "Bearer tok") "tok" = .proceed :=
  ⟨by decide,
   (c4_exact_secret_match "tok" (by decide) (some "Bearer tok")).1.mpr rfl,
   (c4_exact_secret_match "tok" (by decide) (some "Bearer tok")).2.mpr rfl⟩

/-- C5 counterexample: a registered tool whose handler throws an
`Error` carrying a numeric `status` property of 404 makes the endpoint
answer with status 404, not the 500 the claim requires for every
throwing handler. -/
theorem c5_counterexample :
    handleToolExecution throwingCatalog "boom" (Json.obj []) =
      ⟨404, .errJson "upstream not found"⟩ ∧ (404 : Nat) ≠ 500 :=
  ⟨rfl, by decide⟩

/-- C5 (amended): when the handler of a registered tool throws, the
endpoint responds with the numeric `status` property of the thrown
value when present and 500 otherwise, and with the thrown message when
the value is an `Error` instance and a generic message otherwise; the
response is produced from the single handler call with no retry and no
other state. -/
theorem c5_handler_throw_response :
    ∀ (cat : ToolCatalog) (toolName : String) (params : Json)
      (toolDef : ToolDef) (h : Handler) (validated : Json) (e : Thrown),
      cat.tools.find? (fun t => t.name == toolName) = some toolDef →
      cat.handlers toolName = some h →
      toolDef.inputSchema.safeParse params = .ok validated →
      h validated = .error e →
      handleToolExecution cat toolName params =
        ⟨e.statusProp.getD 500,
         .errJson (if e.isError then e.message else "Internal Server Error")⟩ := by
  intro cat toolName params toolDef h validated e h1 h2 h3 h4
  unfold handleToolExecution
  rw [h1, h2]
  simp only [h3, h4, errorMiddleware]
  cases e with
  | mk isError message statusProp => cases statusProp <;> rfl

/-- C5 witness: the throwing catalog at a concrete request. -/
theorem c5_handler_throw_response_witness :
    handleToolExecution throwingCatalog "boom" (Json.obj [("x", Json.num 1)]) =
      ⟨404, .errJson "upstream not found"⟩ :=
  c5_handler_throw_response throwingCatalog "boom" (Json.obj [("x", Json.num 1)])
    ⟨"boom", "Always throws", ⟨[]⟩⟩
    (fun _ => .error ⟨true, "upstream not found", some 404⟩)
    (Json.obj []) ⟨true, "upstream not found", some 404⟩ rfl rfl rfl rfl

/-- C6: a known tool whose raw input fails its schema makes the
endpoint answer 400 with the validation details indexed by field path;
the violation list is nonempty, every violation appears in the details
under its field key, and the response is the same whatever handler is
registered for the tool. -/
theorem c6_invalid_input :
    ∀ (cat : ToolCatalog) (toolName : String) (params : Json)
      (toolDef : ToolDef) (h : Handler) (issues : List Issue),
      cat.tools.find? (fun t => t.name == toolName) = some toolDef →
      cat.handlers toolName = some h →
      toolDef.inputSchema.safeParse params = .error issues →
      handleToolExecution cat toolName params =
        ⟨400, .errDetails "Invalid input parameters."
          (issues.map (fun i => (pathKey i, i.message)))⟩ ∧
      issues ≠ [] ∧
      (∀ i ∈ issues,
        (pathKey i, i.message) ∈ issues.map (fun i => (pathKey i, i.message))) ∧
      (∀ h2 : Handler,
        handleToolExecution
          { cat with handlers := fun n => if n = toolName then some h2 else cat.handlers n }
          toolName params =
        ⟨400, .errDetails "Invalid input parameters."
          (issues.map (fun i => (pathKey i, i.message)))⟩) := by
  intro cat toolName params toolDef h issues h1 h2 h3
  refine ⟨?_, safeParse_error_ne_nil _ _ _ h3, ?_, ?_⟩
  · unfold handleToolExecution
    rw [h1, h2]
    simp only [h3]
  · intro i hi
    exact List.mem_map_of_mem _ hi
  · intro h2'
    have htools :
        ({ cat with handlers := fun n => if n = toolName then some h2' else cat.handlers n }
          : ToolCatalog).tools = cat.tools := rfl
    have hhand :
        ({ cat with handlers := fun n => if n = toolName then some h2' else cat.handlers n }
          : ToolCatalog).handlers toolName = some h2' := by simp
    unfold handleToolExecution
    rw [htools, h1, hhand]
    simp only [h3]

/-- C6 witness: the run_sql scenario, input with a numeric sql field
against a schema requiring a string, yields 400 with a detail under the
field key sql. -/
theorem c6_invalid_input_witness :
    handleToolExecution runSqlCatalog "run_sql" (Json.obj [("sql", Json.num 123)]) =
      ⟨400, .errDetails "Invalid input parameters."
        [("sql", "Expected string, received number")]⟩ :=
  (c6_invalid_input runSqlCatalog "run_sql" (Json.obj [("sql", Json.num 123)])
    ⟨"run_sql", "Run a SQL statement", runSqlSchema⟩ (fun v => .ok v)
    [⟨["sql"], "Expected string, received number"⟩] rfl rfl rfl).1

/-- C7 counterexample: an authenticated out-of-band POST carrying a
present-but-empty session identifier receives 400 MissingSessionId from
the SSE server, although that identifier is absent from the registry
and the claim requires 404 UnknownSession for every identifier absent
from the registry (the empty string is falsy, so the source treats it
like a missing parameter). -/
theorem c7_counterexample :
    Registry.empty "" = none ∧
    httpServerHandler "tok" Registry.empty
        ⟨"POST", "/mcp-post", some "Bearer tok", some ""⟩ =
      (.respond ⟨400, "Missing sessionId query parameter"⟩, Registry.empty) ∧
    (400 : Nat) ≠ 404 :=
  ⟨rfl, rfl, by decide⟩

/-- C7 (amended): on the SSE server an authenticated out-of-band POST
whose sessionId query parameter is missing or present but empty (falsy)
receives 400 MissingSessionId, and one carrying a nonempty session
identifier not present in the registry receives 404 UnknownSession; in
both cases the registry is returned unchanged, so no session is created
implicitly. -/
theorem c7_session_routing :
    ∀ (secret : String) (registry : Registry) (req : HttpRequest),
      req.method = "POST" → req.path = "/mcp-post" →
      checkAuth req.authHeader secret = true →
      (req.sessionIdParam = none ∨ req.sessionIdParam = some "" →
        httpServerHandler secret registry req =
          (.respond ⟨400, "Missing sessionId query parameter"⟩, registry)) ∧
      (∀ sid, req.sessionIdParam = some sid → sid ≠ "" → registry sid = none →
        httpServerHandler secret registry req =
          (.respond ⟨404, "Session not found or inactive"⟩, registry)) := by
  intro secret registry req hm hp hauth
  have hopt : ¬ (req.method = "OPTIONS") := by
    rw [hm]; decide
  have hauth' : ¬ (checkAuth req.authHeader secret = false) := by
    rw [hauth]; decide
  have hsse : ¬ (req.path = "/mcp-sse" ∧ req.method = "GET") := by
    intro hc
    rw [hp] at hc
    exact absurd hc.1 (by decide)
  constructor
  · intro hfalsy
    unfold httpServerHandler
    rw [if_neg hopt, if_neg hauth', if_neg hsse, if_pos ⟨hp, hm⟩]
    cases hfalsy with
    | inl h => rw [h]
    | inr h =>
      rw [h]
      simp
  · intro sid hsid hne hreg
    unfold httpServerHandler
    rw [if_neg hopt, if_neg hauth', if_neg hsse, if_pos ⟨hp, hm⟩, hsid]
    simp [hne, hreg]

/-- C7 witness: both amended failure responses at concrete requests
against the empty registry. -/
theorem c7_session_routing_witness :
    httpServerHandler "tok" Registry.empty
        ⟨"POST", "/mcp-post", some "Bearer tok", none⟩ =
      (.respond ⟨400, "Missing sessionId query parameter"⟩, Registry.empty) ∧
    httpServerHandler "tok" Registry.empty
        ⟨"POST", "/mcp-post", some "Bearer tok", some "sess1"⟩ =
      (.respond ⟨404, "Session not found or inactive"⟩, Registry.empty) :=
  ⟨(c7_session_routing "tok" Registry.empty
      ⟨"POST", "/mcp-post", some "Bearer tok", none⟩ rfl rfl rfl).1 (Or.inl rfl),
   (c7_session_routing "tok" Registry.empty
      ⟨"POST", "/mcp-post", some "Bearer tok", some "sess1"⟩ rfl rfl rfl).2
     "sess1" rfl (by decide) rfl⟩

/-- C8: opening two connections whose transports carry distinct session
ids leaves both ids in the registry; closing the first removes its id,
keeps the second, changes no other key, and closing the same id again
is a no-op, so removal of a given identifier happens at most once. -/
theorem c8_session_registry :
    ∀ (registry : Registry) (t1 t2 : Transport),
      t1.sessionId ≠ t2.sessionId →
      ((sseConnectionSetup (sseConnectionSetup registry t1) t2) t1.sessionId = some t1 ∧
       (sseConnectionSetup (sseConnectionSetup registry t1) t2) t2.sessionId = some t2) ∧
      (sseConnectionClose (sseConnectionSetup (sseConnectionSetup registry t1) t2)
          t1.sessionId) t1.sessionId = none ∧
      (sseConnectionClose (sseConnectionSetup (sseConnectionSetup registry t1) t2)
          t1.sessionId) t2.sessionId = some t2 ∧
      (∀ k, k ≠ t1.sessionId →
        (sseConnectionClose (sseConnectionSetup (sseConnectionSetup registry t1) t2)
            t1.sessionId) k =
        (sseConnectionSetup (sseConnectionSetup registry t1) t2) k) ∧
      sseConnectionClose
          (sseConnectionClose (sseConnectionSetup (sseConnectionSetup registry t1) t2)
            t1.sessionId) t1.sessionId =
        sseConnectionClose (sseConnectionSetup (sseConnectionSetup registry t1) t2)
          t1.sessionId := by
  intro registry t1 t2 hne
  refine ⟨⟨?_, ?_⟩, ?_, ?_, ?_, ?_⟩
  · simp [sseConnectionSetup, Registry.set, hne]
  · simp [sseConnectionSetup, Registry.set]
  · simp [sseConnectionSetup, sseConnectionClose, Registry.set, Registry.del]
  · simp [sseConnectionSetup, sseConnectionClose, Registry.set, Registry.del, Ne.symm hne]
  · intro k hk
    simp [sseConnectionClose, Registry.del, hk]
  · funext k
    by_cases hk : k = t1.sessionId <;> simp [sseConnectionClose, Registry.del, hk]

/-- C8 witness: two concrete sessions with distinct ids. -/
theorem c8_session_registry_witness :
    (Transport.mk "a").sessionId ≠ (Transport.mk "b").sessionId ∧
    (sseConnectionSetup (sseConnectionSetup Registry.empty ⟨"a"⟩) ⟨"b"⟩) "a" =
      some ⟨"a"⟩ ∧
    (sseConnectionClose (sseConnectionSetup (sseConnectionSetup Registry.empty ⟨"a"⟩) ⟨"b"⟩)
        "a") "a" = none :=
  ⟨by decide,
   (c8_session_registry Registry.empty ⟨"a"⟩ ⟨"b"⟩ (by decide)).1.1,
   (c8_session_registry Registry.empty ⟨"a"⟩ ⟨"b"⟩ (by decide)).2.1⟩

/-- C9: an Authorization header that does not start with the literal
Bearer prefix extracts no token, so both gates take the missing-token
rejection path, not the invalid-token one. -/
theorem c9_non_bearer_is_missing :
    ∀ (h : String) (secret : String),
      startsWithBearer h = false →
      extractToken (some h) = none ∧
      checkAuthClass (some h) secret = .missingToken ∧
      authenticateToken (some h) secret = .respond 401 "Unauthorized: Missing token" := by
  intro h secret hsw
  have hx : extractToken (some h) = none := by
    simp [extractToken, hsw]
  exact ⟨hx, by simp [checkAuthClass, hx], by simp [authenticateToken, hx]⟩

/-- C9 witness: a Basic credential is classified as missing. -/
theorem c9_non_bearer_is_missing_witness :
    startsWithBearer "Basic dXNlcg==" = false ∧
    checkAuthClass (some "Basic dXNlcg==") "tok" = .missingToken ∧
    authenticateToken (some "Basic dXNlcg==") "tok" =
      .respond 401 "Unauthorized: Missing token" :=
  ⟨by decide,
   (c9_non_bearer_is_missing "Basic dXNlcg==" "tok" (by decide)).2.1,
   (c9_non_bearer_is_missing "Basic dXNlcg==" "tok" (by decide)).2.2⟩

/-- C10: the SSE server answers every OPTIONS request with 204 and an
untouched registry before the auth gate runs, so two OPTIONS requests
differing only in their credential get identical outcomes. -/
theorem c10_options_ignores_credential :
    ∀ (secret : String) (registry : Registry) (req : HttpRequest),
      req.method = "OPTIONS" →
      httpServerHandler secret registry req = (.respond ⟨204, ""⟩, registry) ∧
      (∀ hdr2 : Option String,
        httpServerHandler secret registry { req with authHeader := hdr2 } =
          httpServerHandler secret registry req) := by
  intro secret registry req hm
  refine ⟨by simp [httpServerHandler, hm], fun hdr2 => by simp [httpServerHandler, hm]⟩

/-- C10 witness: an OPTIONS request carrying a wrong credential still
gets 204. -/
theorem c10_options_ignores_credential_witness :
    httpServerHandler "tok" Registry.empty
        ⟨"OPTIONS", "/mcp-sse", some "Bearer wrong", none⟩ =
      (.respond ⟨204, ""⟩, Registry.empty) :=
  (c10_options_ignores_credential "tok" Registry.empty
    ⟨"OPTIONS", "/mcp-sse", some "Bearer wrong", none⟩ rfl).1

end NeonMcp
